import Mathlib

/-!
Shallow embedding of the observability middleware of the repository
`TechSavvyRC/observability-demo` (three Python source files:
`src/techsavvyrc/techsavvyrc.py`, `src/app/techsavvyrc.py`, `src/app/app.py`).

The canonical middleware is the decorator `observe_latency` of
`src/techsavvyrc/techsavvyrc.py`: it normalizes the request path, times the
wrapped handler, classifies the status code of the outcome (500 on a raised
exception), and in a `finally` block records the duration into a histogram
sink and a summary sink and increments a labelled counter.

Modelling conventions:
  - A Python exception is a `PyErr` (type name and message); a handler is a
    function into `Except PyErr PyVal`, and re-raising is returning the same
    `.error` value.
  - Python values that can flow out of a handler are modelled by `PyVal`.
    The attribute probe `response.status_code` inside `try/except` is
    modelled by `getattr_status_code : PyVal -> Option Int`, where `none`
    means the attribute access raises (caught by the `except`).
  - The three Prometheus sinks are modelled by `MetricState`: the full list
    of observations and increments, in the order they were performed, so
    that counting and frame properties are directly expressible.
  - Clock readings of `time.time()` are passed in explicitly as integers
    (`t0` at the start, `t1` inside the `finally` block). `time.time` is a
    wall clock, so no ordering between the two readings is assumed by the
    model.
-/

namespace ObservabilityDemo

/-- A Python exception value: its type name and message. The middleware
re-raises the very same object, modelled as returning an equal `PyErr`. -/
structure PyErr where
  ty : String
  msg : String
deriving DecidableEq

/-- Python values that a route handler can return: `None`, an int, a
string, a tuple, or a response-like object. For a response-like object,
`vResp (some n)` is an object whose `status_code` attribute reads as `n`,
and `vResp none` is an object whose `status_code` attribute access raises. -/
inductive PyVal where
  | vNone : PyVal
  | vInt (n : Int) : PyVal
  | vStr (s : String) : PyVal
  | vTuple (elems : List PyVal) : PyVal
  | vResp (status : Option Int) : PyVal

/-- The per-request data the middleware reads from Flask `request`. -/
structure Request where
  path : String
  method : String

/-- Model of the Python expression `s.startswith(pre)`: the code points of
`pre` are a prefix of the code points of `s`. -/
def py_startswith (pre s : String) : Bool :=
  pre.data.isPrefixOf s.data

/-- Embedding of `normalize_path` (src/techsavvyrc/techsavvyrc.py, lines
196 to 207): collapse `/static...` to `/static`, collapse `/api...` to
`/api/*`, return every other path unchanged. -/
def normalize_path (path : String) : String :=
  if py_startswith "/static" path then "/static"
  else if py_startswith "/api" path then "/api/*"
  else path

/-- State of the three metric sinks of src/techsavvyrc/techsavvyrc.py.
Each list holds, oldest first, every write performed on that sink:
histogram and summary observations are `(path label, duration)`, counter
increments are `(method, path label, status string)`. -/
structure MetricState where
  histObs : List (String × Int)
  summObs : List (String × Int)
  counter : List (String × String × String)
deriving DecidableEq

/-- Model of the attribute probe `response.status_code`: `some n` when the
attribute exists and reads as `n`, `none` when the access raises (every
value that is not a response-like object, and a response-like object whose
attribute read fails). -/
def getattr_status_code : PyVal → Option Int
  | .vResp st => st
  | _ => none

/-- Embedding of the decorator `observe_latency`
(src/techsavvyrc/techsavvyrc.py, lines 212 to 268) applied to a handler
`H` at argument `x`, with wall-clock readings `t0` (before the handler
runs) and `t1` (inside the `finally` block), acting on sink state `s`.

Mirrors the source line by line: read and normalize the path, record the
start time, initialize `status_code = 500`, run the handler; on a normal
return derive the status from a tuple second element (`int` it must be,
else 200) or from the `status_code` attribute guarded by `try/except`
(default 200); on a raised exception keep 500 and re-raise; in `finally`
compute the duration, observe it in the histogram and the summary keyed by
the normalized path, and increment the counter keyed by method, normalized
path and `str(status_code)`. -/
def observe_latency {α : Type} (H : α → Except PyErr PyVal) (req : Request)
    (t0 t1 : Int) (x : α) (s : MetricState) : Except PyErr PyVal × MetricState :=
  let raw_path := req.path
  let normalized := normalize_path raw_path
  let method := req.method
  let start_time := t0
  let init_status : Int := 500
  let result := H x
  let status_code : Int :=
    match result with
    | .ok response =>
      match response with
      | .vTuple elems =>
        match elems[1]? with
        | some (PyVal.vInt n) => n
        | _ => 200
      | _ =>
        match getattr_status_code response with
        | some sc => sc
        | none => 200
    | .error _ => init_status
  let duration := t1 - start_time
  let s1 : MetricState := { s with histObs := s.histObs ++ [(normalized, duration)] }
  let s2 : MetricState := { s1 with summObs := s1.summObs ++ [(normalized, duration)] }
  let s3 : MetricState := { s2 with counter := s2.counter ++ [(method, normalized, toString status_code)] }
  (result, s3)

/-- Embedding of the `/metrics` route (src/techsavvyrc/techsavvyrc.py,
lines 355 to 367): not wrapped by `observe_latency`; it normalizes the
path, increments the counter with the status label fixed to `"200"`, and
returns the tuple `(generate_latest(), 200, headers)`, with the rendered
exposition text passed in as `payload`. -/
def metrics_route (req : Request) (payload : String) (s : MetricState) :
    Except PyErr PyVal × MetricState :=
  let normalized := normalize_path req.path
  let s1 : MetricState := { s with counter := s.counter ++ [(req.method, normalized, "200")] }
  (.ok (.vTuple [.vStr payload, .vInt 200, .vStr "Content-Type: text/plain"]), s1)

/-- State of the three metric sinks of src/app/techsavvyrc.py, whose
counter has only `(method, endpoint)` labels (no status). -/
structure AppMetricState where
  histObs : List (String × Int)
  summObs : List (String × Int)
  counter : List (String × String)
deriving DecidableEq

/-- Embedding of the `home` route of src/app/techsavvyrc.py (lines 163 to
181). The function is wrapped by the decorator
`REQUEST_LATENCY_HISTOGRAM.labels(endpoint = slash).time()`, and its body
increments `REQUEST_COUNT` and then renders the template inside a `with`
block that times both the summary and, a second time, the same histogram.
Clock readings are explicit: the decorator timer runs from `tDec0` to
`tDec1`; the summary timer of the `with` block from `tSum0` to `tSum1`;
the inner histogram timer from `tHist0` to `tHist1`. The `with` block
timers exit innermost first (histogram, then summary), and the decorator
timer observes last, on function exit. -/
def app_home (method : String) (tDec0 tSum0 tHist0 tHist1 tSum1 tDec1 : Int)
    (render : PyVal) (s : AppMetricState) : PyVal × AppMetricState :=
  let s1 : AppMetricState := { s with counter := s.counter ++ [(method, "/")] }
  let s2 : AppMetricState := { s1 with histObs := s1.histObs ++ [("/", tHist1 - tHist0)] }
  let s3 : AppMetricState := { s2 with summObs := s2.summObs ++ [("/", tSum1 - tSum0)] }
  let s4 : AppMetricState := { s3 with histObs := s3.histObs ++ [("/", tDec1 - tDec0)] }
  (render, s4)

/-- Lowercase hexadecimal digit list of `n`, most significant digit first,
with an explicit fuel argument that bounds the recursion depth. Written
with fuel so that it is structurally recursive and kernel-evaluable. -/
def hexCore : Nat → Nat → List Char
  | 0, _ => []
  | fuel + 1, n =>
    if n < 16 then [Nat.digitChar n]
    else hexCore fuel (n / 16) ++ [Nat.digitChar (n % 16)]

/-- Lowercase hexadecimal rendering of `n` (the Python expression
`format(n, "x")`): fuel `n + 1` always suffices since each recursive step
divides the argument by 16. -/
def toHexStr (n : Nat) : String :=
  ⟨hexCore (n + 1) n⟩

/-- Model of the Python format specification `0<width>x` as used in
`f"{ctx.trace_id:032x}"` and `format(context.trace_id, "032x")`: lowercase
hexadecimal, left-padded with zeros to at least `width` characters. -/
def pyHexFmt (width : Nat) (n : Nat) : String :=
  let s := toHexStr n
  ⟨List.replicate (width - s.length) '0' ++ s.data⟩

/-- The ambient OpenTelemetry span context read by the log formatter: a
128-bit trace identifier and a 64-bit span identifier. The all-zero values
are the invalid identifiers. -/
structure SpanContext where
  trace_id : Nat
  span_id : Nat

/-- The fields of a Python log record that the configured format string of
src/techsavvyrc/techsavvyrc.py interpolates besides the trace context. -/
structure LogRecord where
  asctime : String
  levelname : String
  name : String
  message : String

/-- Embedding of the `record.trace_id` assignment of `TraceFormatter.format`
(src/techsavvyrc/techsavvyrc.py, lines 99 to 116): when a span context is
present and its trace id is truthy (nonzero), the id formatted as 32-digit
zero-padded lowercase hexadecimal, else the sentinel. -/
def record_trace_id (ctx : Option SpanContext) : String :=
  match ctx with
  | some c => if c.trace_id ≠ 0 then pyHexFmt 32 c.trace_id else "N/A"
  | none => "N/A"

/-- Embedding of the `record.span_id` assignment of `TraceFormatter.format`:
when a span context is present and its span id is truthy (nonzero), the id
formatted as 16-digit zero-padded lowercase hexadecimal, else the sentinel. -/
def record_span_id (ctx : Option SpanContext) : String :=
  match ctx with
  | some c => if c.span_id ≠ 0 then pyHexFmt 16 c.span_id else "N/A"
  | none => "N/A"

/-- Embedding of `TraceFormatter.format` together with the configured
format string of src/techsavvyrc/techsavvyrc.py: inject the two trace
fields into the record and render the line
`asctime [levelname] service=name trace_id=... span_id=... message`. -/
def TraceFormatter_format (ctx : Option SpanContext) (r : LogRecord) : String :=
  r.asctime ++ " [" ++ r.levelname ++ "] service=" ++ r.name ++
    " trace_id=" ++ record_trace_id ctx ++ " span_id=" ++ record_span_id ctx ++
    " " ++ r.message

/-! ## Helper lemmas -/

lemma toString_int_200 : toString (200 : Int) = "200" := rfl

lemma toString_int_500 : toString (500 : Int) = "500" := rfl

lemma normalize_path_of_static (p : String) (h : py_startswith "/static" p = true) :
    normalize_path p = "/static" := by
  simp [normalize_path, h]

lemma normalize_path_of_api (p : String) (h1 : py_startswith "/static" p = false)
    (h2 : py_startswith "/api" p = true) : normalize_path p = "/api/*" := by
  simp [normalize_path, h1, h2]

lemma normalize_path_of_other (p : String) (h1 : py_startswith "/static" p = false)
    (h2 : py_startswith "/api" p = false) : normalize_path p = p := by
  simp [normalize_path, h1, h2]

lemma hexCore_length_le (fuel : Nat) :
    ∀ n k : Nat, 1 ≤ k → n < 16 ^ k → (hexCore fuel n).length ≤ k := by
  induction fuel with
  | zero =>
    intro n k hk _
    simp [hexCore]
  | succ fuel ih =>
    intro n k hk hn
    by_cases h : n < 16
    · simpa [hexCore, h] using hk
    · have hk2 : 2 ≤ k := by
        by_contra hlt
        push_neg at hlt
        have hk1 : k = 1 := by omega
        subst hk1
        simp [pow_one] at hn
        omega
      have hdiv : n / 16 < 16 ^ (k - 1) := by
        have hpow : (16 : Nat) ^ (k - 1) * 16 = 16 ^ k := by
          rw [← pow_succ]
          congr 1
          omega
        rw [Nat.div_lt_iff_lt_mul (by norm_num)]
        omega
      have hrec := ih (n / 16) (k - 1) (by omega) hdiv
      simp only [hexCore, if_neg h, List.length_append, List.length_cons,
        List.length_nil]
      omega

lemma toHexStr_length_le (n k : Nat) (hk : 1 ≤ k) (hn : n < 16 ^ k) :
    (toHexStr n).length ≤ k :=
  hexCore_length_le (n + 1) n k hk hn

lemma pyHexFmt_length (w n : Nat) (h : (toHexStr n).length ≤ w) :
    (pyHexFmt w n).length = w := by
  have hlen : (toHexStr n).length = (toHexStr n).data.length := rfl
  simp only [pyHexFmt, String.length, List.length_append, List.length_replicate]
  omega

/-! ## Claim theorems -/

/-- Claim C3 (confirmed): for every string path, `normalize_path` maps a
path starting with `/static` to `/static`, otherwise a path starting with
`/api` to `/api/*`, and leaves every other path unchanged; it is a total
pure function of its argument. -/
theorem claim_C3_normalize_path (p : String) :
    (py_startswith "/static" p = true → normalize_path p = "/static")
    ∧ (py_startswith "/static" p = false → py_startswith "/api" p = true →
        normalize_path p = "/api/*")
    ∧ (py_startswith "/static" p = false → py_startswith "/api" p = false →
        normalize_path p = p) :=
  ⟨normalize_path_of_static p, normalize_path_of_api p, normalize_path_of_other p⟩

/-- Witness for C3 at the three concrete paths used by the spec scenarios. -/
theorem claim_C3_witness :
    normalize_path "/static/app.css" = "/static"
    ∧ normalize_path "/api/v1/users" = "/api/*"
    ∧ normalize_path "/purchase" = "/purchase" :=
  ⟨(claim_C3_normalize_path "/static/app.css").1 (by decide),
   (claim_C3_normalize_path "/api/v1/users").2.1 (by decide) (by decide),
   (claim_C3_normalize_path "/purchase").2.2 (by decide) (by decide)⟩

/-- Claim C10 (confirmed): `normalize_path` is idempotent, so every value
in its image is a fixed point and re-normalizing an already normalized
label never changes it. -/
theorem claim_C10_normalize_path_idempotent (p : String) :
    normalize_path (normalize_path p) = normalize_path p := by
  cases h1 : py_startswith "/static" p with
  | true =>
    rw [normalize_path_of_static p h1, normalize_path_of_static "/static" (by decide)]
  | false =>
    cases h2 : py_startswith "/api" p with
    | true =>
      rw [normalize_path_of_api p h1 h2,
        normalize_path_of_api "/api/*" (by decide) (by decide)]
    | false =>
      rw [normalize_path_of_other p h1 h2]
      exact normalize_path_of_other p h1 h2

/-- Claim C1 counterexample: on the `home` route of src/app/techsavvyrc.py
(cited by the claim), one successful request produces two histogram
observations, not exactly one: the decorator `.time()` on the histogram and
the `with` block inside the body both observe the same histogram. -/
theorem claim_C1_counterexample :
    (app_home "GET" 0 0 0 1 1 2 (.vStr "index") ⟨[], [], []⟩).2.histObs.length = 2
    ∧ (app_home "GET" 0 0 0 1 1 2 (.vStr "index") ⟨[], [], []⟩).2.histObs.length ≠
        (⟨[], [], []⟩ : AppMetricState).histObs.length + 1 := by
  decide

/-- Claim C1 (corrected): for the `observe_latency` middleware of
src/techsavvyrc/techsavvyrc.py, every invocation performs exactly one
histogram observation, exactly one summary observation and exactly one
counter increment, on every exit path, all completed in the final state
the wrapper returns; the src/app variant routes instead observe the
histogram twice per request. -/
theorem claim_C1_exactly_once {α : Type} (H : α → Except PyErr PyVal) (req : Request)
    (t0 t1 : Int) (x : α) (s : MetricState) :
    (observe_latency H req t0 t1 x s).2.histObs.length = s.histObs.length + 1
    ∧ (observe_latency H req t0 t1 x s).2.summObs.length = s.summObs.length + 1
    ∧ (observe_latency H req t0 t1 x s).2.counter.length = s.counter.length + 1 := by
  refine ⟨?_, ?_, ?_⟩ <;> simp [observe_latency]

/-- Claim C2 (confirmed): when the handler raises, the middleware records
status `"500"` in the counter regardless of the exception, still performs
the histogram and summary observations, and returns the very same error to
the caller. -/
theorem claim_C2_exception_path {α : Type} (H : α → Except PyErr PyVal) (req : Request)
    (t0 t1 : Int) (x : α) (s : MetricState) (e : PyErr) (h : H x = .error e) :
    (observe_latency H req t0 t1 x s).1 = .error e
    ∧ (observe_latency H req t0 t1 x s).2.counter =
        s.counter ++ [(req.method, normalize_path req.path, "500")]
    ∧ (observe_latency H req t0 t1 x s).2.histObs =
        s.histObs ++ [(normalize_path req.path, t1 - t0)]
    ∧ (observe_latency H req t0 t1 x s).2.summObs =
        s.summObs ++ [(normalize_path req.path, t1 - t0)] := by
  refine ⟨?_, ?_, ?_, ?_⟩ <;> simp [observe_latency, h, toString_int_500]

/-- Witness for C2: a handler raising the simulated purchase error has its
error propagated and the three sinks written with status label 500. -/
theorem claim_C2_witness :
    ((observe_latency
        (fun _ : Unit => .error ⟨"ValueError", "Simulated error for observability testing"⟩)
        ⟨"/purchase", "POST"⟩ 0 1 () ⟨[], [], []⟩).1 =
      .error ⟨"ValueError", "Simulated error for observability testing"⟩)
    ∧ ((observe_latency
        (fun _ : Unit => .error ⟨"ValueError", "Simulated error for observability testing"⟩)
        ⟨"/purchase", "POST"⟩ 0 1 () ⟨[], [], []⟩).2.counter =
      [("POST", "/purchase", "500")])
    ∧ ((observe_latency
        (fun _ : Unit => .error ⟨"ValueError", "Simulated error for observability testing"⟩)
        ⟨"/purchase", "POST"⟩ 0 1 () ⟨[], [], []⟩).2.histObs = [("/purchase", 1)])
    ∧ ((observe_latency
        (fun _ : Unit => .error ⟨"ValueError", "Simulated error for observability testing"⟩)
        ⟨"/purchase", "POST"⟩ 0 1 () ⟨[], [], []⟩).2.summObs = [("/purchase", 1)]) :=
  claim_C2_exception_path
    (fun _ : Unit => .error ⟨"ValueError", "Simulated error for observability testing"⟩)
    ⟨"/purchase", "POST"⟩ 0 1 () ⟨[], [], []⟩
    ⟨"ValueError", "Simulated error for observability testing"⟩ rfl

/-- Claim C4 (confirmed): a tuple return with at least two elements whose
second element is an integer is counted under that integer as its status
string; every tuple without an integer second element is counted under the
default `"200"`. -/
theorem claim_C4_tuple_status {α : Type} (H : α → Except PyErr PyVal) (req : Request)
    (t0 t1 : Int) (x : α) (s : MetricState) (elems : List PyVal)
    (h : H x = .ok (.vTuple elems)) :
    (∀ n : Int, elems[1]? = some (.vInt n) →
      (observe_latency H req t0 t1 x s).2.counter =
        s.counter ++ [(req.method, normalize_path req.path, toString n)])
    ∧ ((∀ n : Int, elems[1]? ≠ some (.vInt n)) →
      (observe_latency H req t0 t1 x s).2.counter =
        s.counter ++ [(req.method, normalize_path req.path, "200")]) := by
  constructor
  · intro n hn
    simp [observe_latency, h, hn]
  · intro hn
    cases hg : elems[1]? with
    | none => simp [observe_latency, h, hg, toString_int_200]
    | some v =>
      cases v with
      | vInt n => exact absurd hg (hn n)
      | vNone => simp [observe_latency, h, hg, toString_int_200]
      | vStr str => simp [observe_latency, h, hg, toString_int_200]
      | vTuple es => simp [observe_latency, h, hg, toString_int_200]
      | vResp st => simp [observe_latency, h, hg, toString_int_200]

/-- Witness for C4: a handler returning the pair (body, 201) is counted
under the status label 201, and a 1-tuple return is counted under 200. -/
theorem claim_C4_witness :
    ((observe_latency (fun _ : Unit => .ok (.vTuple [.vStr "body", .vInt 201]))
        ⟨"/purchase", "POST"⟩ 0 1 () ⟨[], [], []⟩).2.counter =
      [("POST", "/purchase", "201")])
    ∧ ((observe_latency (fun _ : Unit => .ok (.vTuple [.vStr "body"]))
        ⟨"/purchase", "POST"⟩ 0 1 () ⟨[], [], []⟩).2.counter =
      [("POST", "/purchase", "200")]) := by
  constructor
  · exact (claim_C4_tuple_status (fun _ : Unit => .ok (.vTuple [.vStr "body", .vInt 201]))
      ⟨"/purchase", "POST"⟩ 0 1 () ⟨[], [], []⟩ [.vStr "body", .vInt 201] rfl).1 201 rfl
  · exact (claim_C4_tuple_status (fun _ : Unit => .ok (.vTuple [.vStr "body"]))
      ⟨"/purchase", "POST"⟩ 0 1 () ⟨[], [], []⟩ [.vStr "body"] rfl).2
      (fun n hn => by simp at hn)

/-- Claim C5 (confirmed): status classification always yields exactly one
well-defined status string (it never raises); a non-tuple return exposing
a status-code attribute is counted under that attribute value; any
non-tuple return whose attribute introspection fails degrades to the
default 200; and a raised exception keeps the status initialized to 500
before the handler ran. -/
theorem claim_C5_classifier_safety {α : Type} (H : α → Except PyErr PyVal) (req : Request)
    (t0 t1 : Int) (x : α) (s : MetricState) :
    (∃ st : String, (observe_latency H req t0 t1 x s).2.counter =
        s.counter ++ [(req.method, normalize_path req.path, st)])
    ∧ (∀ sc : Int, H x = .ok (.vResp (some sc)) →
        (observe_latency H req t0 t1 x s).2.counter =
          s.counter ++ [(req.method, normalize_path req.path, toString sc)])
    ∧ (∀ v : PyVal, H x = .ok v → (∀ elems, v ≠ .vTuple elems) →
        getattr_status_code v = none →
        (observe_latency H req t0 t1 x s).2.counter =
          s.counter ++ [(req.method, normalize_path req.path, "200")])
    ∧ (∀ e : PyErr, H x = .error e →
        (observe_latency H req t0 t1 x s).2.counter =
          s.counter ++ [(req.method, normalize_path req.path, "500")]) := by
  refine ⟨⟨_, rfl⟩, ?_, ?_, ?_⟩
  · intro sc h
    simp [observe_latency, h, getattr_status_code]
  · intro v h hnt hattr
    cases v with
    | vTuple es => exact absurd rfl (hnt es)
    | vNone => simp [observe_latency, h, getattr_status_code, toString_int_200]
    | vInt n => simp [observe_latency, h, getattr_status_code, toString_int_200]
    | vStr str => simp [observe_latency, h, getattr_status_code, toString_int_200]
    | vResp st =>
      simp [getattr_status_code] at hattr
      simp [observe_latency, h, hattr, getattr_status_code, toString_int_200]
  · intro e h
    simp [observe_latency, h, toString_int_500]

/-- Witness for C5 at three concrete handlers: a response object with
status 404, a bare string body, and a raising handler. -/
theorem claim_C5_witness :
    ((observe_latency (fun _ : Unit => .ok (.vResp (some 404)))
        ⟨"/checkout", "GET"⟩ 0 1 () ⟨[], [], []⟩).2.counter =
      [("GET", "/checkout", toString (404 : Int))])
    ∧ ((observe_latency (fun _ : Unit => .ok (.vStr "hello"))
        ⟨"/checkout", "GET"⟩ 0 1 () ⟨[], [], []⟩).2.counter =
      [("GET", "/checkout", "200")])
    ∧ ((observe_latency (fun _ : Unit => .error ⟨"ValueError", "boom"⟩)
        ⟨"/checkout", "GET"⟩ 0 1 () ⟨[], [], []⟩).2.counter =
      [("GET", "/checkout", "500")]) :=
  ⟨(claim_C5_classifier_safety (fun _ : Unit => .ok (.vResp (some 404)))
      ⟨"/checkout", "GET"⟩ 0 1 () ⟨[], [], []⟩).2.1 404 rfl,
   (claim_C5_classifier_safety (fun _ : Unit => .ok (.vStr "hello"))
      ⟨"/checkout", "GET"⟩ 0 1 () ⟨[], [], []⟩).2.2.1 (.vStr "hello") rfl
      (fun elems h => by simp at h) rfl,
   (claim_C5_classifier_safety (fun _ : Unit => .error ⟨"ValueError", "boom"⟩)
      ⟨"/checkout", "GET"⟩ 0 1 () ⟨[], [], []⟩).2.2.2 ⟨"ValueError", "boom"⟩ rfl⟩

/-- Claim C7 (confirmed): the wrapped handler call returns exactly the
value the handler itself produces on that input, on both the normal path
and the error path: the wrapper changes metric-sink state only. -/
theorem claim_C7_transparent {α : Type} (H : α → Except PyErr PyVal) (req : Request)
    (t0 t1 : Int) (x : α) (s : MetricState) :
    (observe_latency H req t0 t1 x s).1 = H x := rfl

/-- Claim C8 counterexample: the code reads `time.time()`, a wall clock
with no monotonicity guarantee, so when the second reading is smaller than
the first the histogram receives a negative duration: with readings 5 then
3 the middleware records duration -2. -/
theorem claim_C8_counterexample :
    (observe_latency (fun _ : Unit => .ok .vNone) ⟨"/x", "GET"⟩ 5 3 ()
        ⟨[], [], []⟩).2.histObs = [("/x", -2)]
    ∧ ((-2 : Int) < 0) := by
  decide

/-- Claim C8 (corrected): the duration fed to the histogram and the
summary is the difference of the two wall-clock readings taken before the
handler runs and inside the `finally` block, and it is non-negative
whenever the second reading is at least the first; since `time.time()` is
not a monotonic source, that proviso is not guaranteed by the code. -/
theorem claim_C8_duration {α : Type} (H : α → Except PyErr PyVal) (req : Request)
    (t0 t1 : Int) (x : α) (s : MetricState) (h : t0 ≤ t1) :
    (observe_latency H req t0 t1 x s).2.histObs =
        s.histObs ++ [(normalize_path req.path, t1 - t0)]
    ∧ (observe_latency H req t0 t1 x s).2.summObs =
        s.summObs ++ [(normalize_path req.path, t1 - t0)]
    ∧ 0 ≤ t1 - t0 := by
  refine ⟨rfl, rfl, by omega⟩

/-- Witness for C8 at concrete readings 0 and 1 on the home route. -/
theorem claim_C8_witness :
    ((observe_latency (fun _ : Unit => .ok (.vStr "index")) ⟨"/", "GET"⟩ 0 1 ()
        ⟨[], [], []⟩).2.histObs = [("/", 1)])
    ∧ ((observe_latency (fun _ : Unit => .ok (.vStr "index")) ⟨"/", "GET"⟩ 0 1 ()
        ⟨[], [], []⟩).2.summObs = [("/", 1)])
    ∧ (0 : Int) ≤ 1 - 0 :=
  claim_C8_duration (fun _ : Unit => .ok (.vStr "index")) ⟨"/", "GET"⟩ 0 1 ()
    ⟨[], [], []⟩ (by decide)

/-- Claim C9 (confirmed): the `/metrics` route increments the counter
exactly once with the status label hard-coded to `"200"` and leaves the
histogram and summary sinks untouched; it is defined outside
`observe_latency`, so the per-request observation property of the
middleware does not extend to it. -/
theorem claim_C9_metrics_route (req : Request) (payload : String) (s : MetricState) :
    (metrics_route req payload s).2.counter =
        s.counter ++ [(req.method, normalize_path req.path, "200")]
    ∧ (metrics_route req payload s).2.histObs = s.histObs
    ∧ (metrics_route req payload s).2.summObs = s.summObs :=
  ⟨rfl, rfl, rfl⟩

/-- Claim C6 counterexample: a span context whose trace id is nonzero but
whose span id is zero renders the span field as the sentinel, not as the
16-digit zero-padded hexadecimal of the span id, because the code tests
the truthiness of `ctx.span_id` independently of `ctx.trace_id`. -/
theorem claim_C6_counterexample :
    (⟨1, 0⟩ : SpanContext).trace_id ≠ 0
    ∧ record_span_id (some ⟨1, 0⟩) = "N/A"
    ∧ record_span_id (some ⟨1, 0⟩) ≠ pyHexFmt 16 (⟨1, 0⟩ : SpanContext).span_id := by
  decide

/-- Claim C6 (corrected): with an active span context, a nonzero 128-bit
trace id renders as its 32-character zero-padded lowercase hexadecimal and
a nonzero 64-bit span id renders as its 16-character zero-padded lowercase
hexadecimal (a zero identifier renders as the sentinel); with no active
context both fields are the sentinel; and the formatter is a total
function that places both fields in the produced line. -/
theorem claim_C6_trace_fields (ctx : Option SpanContext) (r : LogRecord) :
    (∀ c : SpanContext, ctx = some c → c.trace_id ≠ 0 → c.trace_id < 2 ^ 128 →
        record_trace_id ctx = pyHexFmt 32 c.trace_id
        ∧ (record_trace_id ctx).length = 32)
    ∧ (∀ c : SpanContext, ctx = some c → c.span_id ≠ 0 → c.span_id < 2 ^ 64 →
        record_span_id ctx = pyHexFmt 16 c.span_id
        ∧ (record_span_id ctx).length = 16)
    ∧ (ctx = none → record_trace_id ctx = "N/A" ∧ record_span_id ctx = "N/A")
    ∧ (∃ pre mid post : String, TraceFormatter_format ctx r =
        pre ++ record_trace_id ctx ++ mid ++ record_span_id ctx ++ post) := by
  refine ⟨?_, ?_, ?_, ?_⟩
  · rintro c rfl hnz hbound
    have heq : record_trace_id (some c) = pyHexFmt 32 c.trace_id := by
      simp [record_trace_id, hnz]
    refine ⟨heq, ?_⟩
    rw [heq]
    refine pyHexFmt_length 32 c.trace_id (toHexStr_length_le c.trace_id 32 (by norm_num) ?_)
    calc c.trace_id < 2 ^ 128 := hbound
      _ = 16 ^ 32 := by norm_num
  · rintro c rfl hnz hbound
    have heq : record_span_id (some c) = pyHexFmt 16 c.span_id := by
      simp [record_span_id, hnz]
    refine ⟨heq, ?_⟩
    rw [heq]
    refine pyHexFmt_length 16 c.span_id (toHexStr_length_le c.span_id 16 (by norm_num) ?_)
    calc c.span_id < 2 ^ 64 := hbound
      _ = 16 ^ 16 := by norm_num
  · rintro rfl
    exact ⟨rfl, rfl⟩
  · refine ⟨r.asctime ++ " [" ++ r.levelname ++ "] service=" ++ r.name ++ " trace_id=",
      " span_id=", " " ++ r.message, ?_⟩
    simp [TraceFormatter_format, String.append_assoc]

/-- Witness for C6 at a concrete context with trace id 1 and span id 2,
and at the absent context. -/
theorem claim_C6_witness :
    (record_trace_id (some ⟨1, 2⟩) = pyHexFmt 32 1
      ∧ (record_trace_id (some ⟨1, 2⟩)).length = 32)
    ∧ (record_span_id (some ⟨1, 2⟩) = pyHexFmt 16 2
      ∧ (record_span_id (some ⟨1, 2⟩)).length = 16)
    ∧ (record_trace_id none = "N/A" ∧ record_span_id none = "N/A") :=
  ⟨(claim_C6_trace_fields (some ⟨1, 2⟩) ⟨"t", "INFO", "techsavvyrc", "msg"⟩).1
      ⟨1, 2⟩ rfl (by decide) (by norm_num),
   (claim_C6_trace_fields (some ⟨1, 2⟩) ⟨"t", "INFO", "techsavvyrc", "msg"⟩).2.1
      ⟨1, 2⟩ rfl (by decide) (by norm_num),
   (claim_C6_trace_fields none ⟨"t", "INFO", "techsavvyrc", "msg"⟩).2.2.1 rfl⟩

end ObservabilityDemo
